import Mathlib

/-!
Verification of the asynchronous file-processing core of the
AI-Powered Scalable Task & File Processing Platform.

The Python source under `fastapi_processor/` is shallowly embedded:
* `submit_file` models the `/process/submit` handler
  (`routers/process.py`): validation, temp-file staging, creation of the
  pending task record, and scheduling of the background run.
* `backgroundProcessFile` models `_background_process_file`: the status
  writes, push events, pipeline call and `finally` cleanup, with the
  store writes parameterised by possible persistence failures
  (`Option String`, `none` = commit succeeded).
* `extract_text_from_file`, `process_with_ai`, `run_full_pipeline` model
  `services/ai_service.py`, with the file reads, the optional parser
  libraries and the external model response supplied as an environment.
* `ConnectionManager.send_to_user` models `websocket_manager.py`.
* `websocket_endpoint` models the `/process/ws/{user_id}` handler.
-/

set_option autoImplicit false

namespace Platform

/-- Task status column values written by the code. -/
inductive Status where
  | pending
  | processing
  | completed
  | failed
deriving DecidableEq, Repr

/-- `ProcessingTaskDB` row (`database.py`): the columns the core writes. -/
structure Task where
  id : String
  user_id : Int
  filename : String
  file_size : Nat
  status : Status
  task_type : String
  result : Option String
  error_message : Option String
deriving DecidableEq, Repr

/-- `settings.MAX_FILE_SIZE_MB` (`config.py`). -/
def MAX_FILE_SIZE_MB : Nat := 10

/-- `settings.MAX_FILE_SIZE_BYTES = MAX_FILE_SIZE_MB * 1024 * 1024`. -/
def MAX_FILE_SIZE_BYTES : Nat := MAX_FILE_SIZE_MB * 1024 * 1024

/-- `settings.UPLOAD_DIR`. -/
def UPLOAD_DIR : String := "/app/uploads"

/-- `valid_tasks` set in `submit_file`. -/
def valid_tasks : List String :=
  ["summarize", "extract_keywords", "sentiment", "translate", "qa"]

/-- `effective_user_id = user_id or current_user.user_id`: Python `or`
takes the right operand when the left is falsy (`None` or `0`). -/
def effectiveUserId (form_user_id : Option Int) (auth_user_id : Int) : Int :=
  match form_user_id with
  | none => auth_user_id
  | some u => if u = 0 then auth_user_id else u

/-- An `HTTPException` raised by a handler. -/
structure HTTPError where
  status_code : Nat
  detail : String
deriving DecidableEq, Repr

/-- `TaskSubmitResponse` (`models/schemas.py`) as returned by `submit_file`. -/
structure TaskSubmitResponse where
  task_id : String
  status : String
  filename : String
  task_type : String
deriving DecidableEq, Repr

/-- Inputs to one `/process/submit` request. -/
structure SubmitInput where
  filename : String
  content_size : Nat
  task_type : String
  form_user_id : Option Int
  auth_user_id : Int
deriving Repr

/-- Observable side-effect state of the submission boundary: persisted
task rows, staged temp files, scheduled background runs `(task_id, user_id)`. -/
structure SubmitState where
  tasks : List Task
  staged : List String
  scheduled : List (String × Int)
deriving DecidableEq, Repr

/-- `submit_file` (`routers/process.py`): size check, task-kind check,
temp-file staging, pending record creation, background scheduling. The
fresh UUID is passed in as `taskId`. -/
def submit_file (inp : SubmitInput) (taskId : String) (st : SubmitState) :
    Except HTTPError TaskSubmitResponse × SubmitState :=
  if inp.content_size > MAX_FILE_SIZE_BYTES then
    (.error ⟨413, "File too large. Max size: 10MB"⟩, st)
  else if ¬ (inp.task_type ∈ valid_tasks) then
    (.error ⟨422, "Invalid task_type."⟩, st)
  else
    let uid := effectiveUserId inp.form_user_id inp.auth_user_id
    let file_path := UPLOAD_DIR ++ "/" ++ taskId ++ "_" ++ inp.filename
    let task : Task :=
      { id := taskId, user_id := uid, filename := inp.filename,
        file_size := inp.content_size, status := .pending,
        task_type := inp.task_type, result := none, error_message := none }
    (.ok { task_id := taskId, status := "pending",
           filename := inp.filename, task_type := inp.task_type },
     { tasks := st.tasks ++ [task],
       staged := st.staged ++ [file_path],
       scheduled := st.scheduled ++ [(taskId, uid)] })

instance exceptDecEq {ε α : Type} [DecidableEq ε] [DecidableEq α] :
    DecidableEq (Except ε α) := fun x y =>
  match x, y with
  | .ok a, .ok b => decidable_of_iff (a = b) (by simp)
  | .ok _, .error _ => .isFalse (by simp)
  | .error _, .ok _ => .isFalse (by simp)
  | .error e, .error f => decidable_of_iff (e = f) (by simp)

/-! ### `services/ai_service.py` -/

/-- Python `str.strip()` / `.strip()` whitespace set (ASCII subset used here). -/
def isSpace (c : Char) : Bool :=
  c = ' ' ∨ c = '\t' ∨ c = '\n' ∨ c = '\r' ∨ c = '\x0b' ∨ c = '\x0c'

/-- Python `s.strip()`. -/
def pyStrip (s : String) : String :=
  String.mk (((s.toList.dropWhile isSpace).reverse.dropWhile isSpace).reverse)

/-- Python `s.lower()` (ASCII). -/
def pyLower (s : String) : String :=
  String.mk (s.toList.map Char.toLower)

/-- `pathlib.Path(filename).suffix`: the substring from the last dot of the
name, provided that dot is neither the first nor the last character;
otherwise the empty string. -/
def pathSuffix (filename : String) : String :=
  let cs := filename.toList
  match ((List.range cs.length).filter fun i => cs.getD i ' ' = '.').getLast? with
  | none => ""
  | some i => if 0 < i ∧ i < cs.length - 1 then String.mk (cs.drop i) else ""

/-- External world of one extraction: whether the optional parser libraries
imported, and the outcomes of the file reads / parses (`.error` = the Python
call raised with that message). -/
structure ExtractEnv where
  pdf_support : Bool
  docx_support : Bool
  readText : Except String String
  pdfPages : Except String (List String)
  docxParas : Except String (List String)
deriving Repr

/-- `extract_text_from_file` (`services/ai_service.py`): dispatch on the
lower-cased path suffix; unknown extensions fall back to a plain-text read
and only raise `Unsupported file type` if that read itself raises. -/
def extract_text_from_file (env : ExtractEnv) (filename : String) :
    Except String String :=
  let ext := pyLower (pathSuffix filename)
  if ext = ".txt" then
    env.readText
  else if ext = ".pdf" then
    if ¬ env.pdf_support then
      .error "PDF processing not available. Install PyPDF2."
    else
      match env.pdfPages with
      | .error e => .error e
      | .ok pages => .ok (pyStrip (String.join pages))
  else if ext = ".docx" ∨ ext = ".doc" then
    if ¬ env.docx_support then
      .error "DOCX processing not available. Install python-docx."
    else
      match env.docxParas with
      | .error e => .error e
      | .ok paras =>
          .ok (pyStrip (String.intercalate "\n" (paras.filter fun p => p ≠ "")))
  else
    match env.readText with
    | .ok t => .ok t
    | .error _ =>
        .error ("Unsupported file type: " ++ ext ++ ". Supported: .txt, .pdf, .docx")

/-- Truncation applied before prompting (`max_chars = 12000`). -/
def truncate_text (text : String) : String :=
  if text.length > 12000 then
    text.take 12000 ++ "\n\n[... document truncated for processing ...]"
  else text

/-- `process_with_ai`: empty-input guard, then the external chat-completion
call, whose outcome is the parameter `modelResponse` (`.error` = the client
raised). The returned `Bool` records whether the external call was made.
The prompt construction from `TASK_PROMPTS` only feeds that external call
and is abstracted into `modelResponse`. -/
def process_with_ai (modelResponse : Except String String) (text : String) :
    Except String String × Bool :=
  if pyStrip text = "" then
    (.error "File appears to be empty or unreadable.", false)
  else
    match modelResponse with
    | .error e => (.error e, true)
    | .ok content => (.ok (pyStrip content), true)

/-- `run_full_pipeline`: extract, then process. The `Bool` records whether
the inference call was reached. -/
def run_full_pipeline (env : ExtractEnv) (modelResponse : Except String String)
    (filename : String) : Except String String × Bool :=
  match extract_text_from_file env filename with
  | .error e => (.error e, false)
  | .ok text => process_with_ai modelResponse text

/-! ### `_background_process_file` (`routers/process.py`) -/

/-- One committed `UPDATE` of the task row: exactly the columns listed in
`.values(...)`; an omitted column keeps its stored value. -/
structure TaskUpdate where
  status : Status
  result : Option String := none
  error_message : Option String := none
deriving DecidableEq, Repr

/-- Observable outcome of one background run. -/
structure RunTrace where
  writes : List TaskUpdate
  pushes : List String
  inference_called : Bool
  cleanup_ran : Bool
  files : List String
  escaped : Option String
deriving DecidableEq, Repr

/-- `os.remove`: raises `FileNotFoundError` when the path is absent. -/
def os_remove (files : List String) (path : String) :
    Except String (List String) :=
  if path ∈ files then .ok (files.erase path)
  else .error "FileNotFoundError"

/-- The `finally` block: `os.remove` with `FileNotFoundError` swallowed. -/
def cleanup_temp_file (files : List String) (path : String) : List String :=
  match os_remove files path with
  | .ok fs => fs
  | .error _ => files

/-- `_background_process_file`: the status writes, push events, pipeline
call and `finally` cleanup of one run. `w1`, `w2`, `w3` inject the outcome
of the three persistence points (processing / completed / failed commit):
`none` = success, `some msg` = the commit raised with that message.
`manager.send_to_user` never raises (it swallows per-connection errors),
so the pushes themselves cannot fail the run. -/
def background_process_file
    (env : ExtractEnv) (modelResponse : Except String String)
    (w1 w2 w3 : Option String)
    (files0 : List String) (file_path filename : String) : RunTrace :=
  match w1 with
  | some e1 =>
      { writes := [], pushes := [], inference_called := false,
        cleanup_ran := false, files := files0, escaped := some e1 }
  | none =>
    let procW : TaskUpdate := { status := .processing }
    let pipe := run_full_pipeline env modelResponse filename
    match pipe.1 with
    | .ok result =>
      match w2 with
      | none =>
          { writes := [procW, { status := .completed, result := some result }],
            pushes := ["task_started", "task_completed"],
            inference_called := pipe.2, cleanup_ran := true,
            files := cleanup_temp_file files0 file_path, escaped := none }
      | some e2 =>
        match w3 with
        | none =>
            { writes := [procW, { status := .failed, error_message := some e2 }],
              pushes := ["task_started", "task_failed"],
              inference_called := pipe.2, cleanup_ran := true,
              files := cleanup_temp_file files0 file_path, escaped := none }
        | some e3 =>
            { writes := [procW], pushes := ["task_started"],
              inference_called := pipe.2, cleanup_ran := true,
              files := cleanup_temp_file files0 file_path, escaped := some e3 }
    | .error msg =>
      match w3 with
      | none =>
          { writes := [procW, { status := .failed, error_message := some msg }],
            pushes := ["task_started", "task_failed"],
            inference_called := pipe.2, cleanup_ran := true,
            files := cleanup_temp_file files0 file_path, escaped := none }
      | some e3 =>
          { writes := [procW], pushes := ["task_started"],
            inference_called := pipe.2, cleanup_ran := true,
            files := cleanup_temp_file files0 file_path, escaped := some e3 }

/-- The task row created by `submit_file` before the run starts. -/
def pendingTask (taskId : String) (uid : Int) (filename : String)
    (size : Nat) (task_type : String) : Task :=
  { id := taskId, user_id := uid, filename := filename, file_size := size,
    status := .pending, task_type := task_type,
    result := none, error_message := none }

/-- Apply one committed `UPDATE` to a row: columns absent from
`.values(...)` keep their stored value. -/
def applyUpdate (t : Task) (u : TaskUpdate) : Task :=
  { t with
    status := u.status,
    result := match u.result with | some r => some r | none => t.result,
    error_message :=
      match u.error_message with | some e => some e | none => t.error_message }

/-- The statuses written over the task's lifetime: the pending insert by
`submit_file`, then the committed updates of its run, in order. -/
def statusHistory (tr : RunTrace) : List Status :=
  .pending :: tr.writes.map (·.status)

/-- Every row state the store passes through: the initial pending row and
the result of each committed update, in order. -/
def taskStates (t0 : Task) (tr : RunTrace) : List Task :=
  tr.writes.scanl applyUpdate t0

/-! ### `websocket_manager.py` -/

/-- A WebSocket connection object, identified by a number. -/
abbrev Conn := Nat

/-- `ConnectionManager.active_connections`: `user_id -> list of connections`,
a Python dict in insertion order, at most one entry per key. -/
structure ConnectionManager where
  active_connections : List (Int × List Conn)
deriving DecidableEq, Repr

/-- `self.active_connections[user_id]` lookup (`in` test plus access). -/
def lookupBucket : List (Int × List Conn) → Int → Option (List Conn)
  | [], _ => none
  | (u, cs) :: rest, uid => if u = uid then some cs else lookupBucket rest uid

/-- Assignment `self.active_connections[user_id] = new` for a present key. -/
def setBucket : List (Int × List Conn) → Int → List Conn → List (Int × List Conn)
  | [], _, _ => []
  | (u, cs) :: rest, uid, new =>
      if u = uid then (u, new) :: rest else (u, cs) :: setBucket rest uid new

/-- The `for dead in dead_connections: ....remove(dead)` loop:
each `list.remove` erases the first occurrence. -/
def removeDeadConnections (conns dead : List Conn) : List Conn :=
  dead.foldl (fun acc d => acc.erase d) conns

/-- `ConnectionManager.connect`: create the bucket if absent, append. -/
def ConnectionManager.connect (m : ConnectionManager) (ws : Conn) (uid : Int) :
    ConnectionManager :=
  match lookupBucket m.active_connections uid with
  | none => ⟨m.active_connections ++ [(uid, [ws])]⟩
  | some conns => ⟨setBucket m.active_connections uid (conns ++ [ws])⟩

/-- `ConnectionManager.send_to_user`: try every connection of the owner's
bucket (`sendOk c = false` = that `send_text` raised), collect the dead ones,
then remove them from the bucket. Returns the updated manager and the
connections the message was delivered to, in iteration order. An owner with
no bucket: nothing happens. -/
def ConnectionManager.send_to_user (m : ConnectionManager) (sendOk : Conn → Bool)
    (uid : Int) : ConnectionManager × List Conn :=
  match lookupBucket m.active_connections uid with
  | none => (m, [])
  | some conns =>
      let dead := conns.filter fun c => ! sendOk c
      (⟨setBucket m.active_connections uid (removeDeadConnections conns dead)⟩,
       conns.filter fun c => sendOk c)

/-! ### `websocket_endpoint` (`routers/process.py`) -/

/-- Observable outcome of one WebSocket connection attempt, up to the
welcome message (the keep-alive loop that follows is out of scope). -/
structure WsOutcome where
  registered : Bool
  connected_event_sent : Bool
  close_code : Option Nat
deriving DecidableEq, Repr

/-- `websocket_endpoint`: `if token:` skips validation entirely when the
query parameter is absent (`None`) or empty (falsy). Otherwise the token is
decoded (`decodeTok t = none` = `jose_jwt.decode` or `int(...)` raised, or
no `user_id` claim) and its `user_id` compared with the path's; mismatch or
decode failure closes with 4001 before registration. An accepted connection
is registered with the manager and sent the `connected` event. -/
def websocket_endpoint (decodeTok : String → Option Int) (token : Option String)
    (user_id : Int) (m : ConnectionManager) (ws : Conn) :
    WsOutcome × ConnectionManager :=
  let refusal : Option Nat :=
    match token with
    | none => none
    | some t =>
        if t = "" then none
        else
          match decodeTok t with
          | none => some 4001
          | some uid => if uid = user_id then none else some 4001
  match refusal with
  | some code =>
      ({ registered := false, connected_event_sent := false,
         close_code := some code }, m)
  | none =>
      ({ registered := true, connected_event_sent := true, close_code := none },
       m.connect ws user_id)

/-! ### Concrete environments used to evaluate the model -/

/-- A healthy environment for a plain-text upload. -/
def envTxt : ExtractEnv :=
  { pdf_support := true, docx_support := true,
    readText := .ok "hello world", pdfPages := .ok [], docxParas := .ok [] }

/-- An environment in which the PDF parser library is missing. -/
def envNoPdf : ExtractEnv :=
  { pdf_support := false, docx_support := true,
    readText := .ok "hello world", pdfPages := .error "no pdf",
    docxParas := .ok [] }

/-- An environment for an unknown extension whose plain-text fallback
read succeeds. -/
def envMd : ExtractEnv :=
  { pdf_support := true, docx_support := true,
    readText := .ok "markdown text", pdfPages := .ok [], docxParas := .ok [] }

/-! ## Claims -/

/-- C1: the claim that a client-supplied owner identifier always overrides
the authenticated principal is FALSE at `user_id = 0`: Python's
`user_id or current_user.user_id` treats `0` as falsy, so the persisted row
carries the authenticated principal's id `7`, not the supplied `0`. -/
theorem C1_counterexample :
    (submit_file
        { filename := "a.txt", content_size := 5, task_type := "summarize",
          form_user_id := some 0, auth_user_id := 7 }
        "t1" { tasks := [], staged := [], scheduled := [] }).1 =
      Except.ok { task_id := "t1", status := "pending", filename := "a.txt",
                  task_type := "summarize" } ∧
    ((submit_file
        { filename := "a.txt", content_size := 5, task_type := "summarize",
          form_user_id := some 0, auth_user_id := 7 }
        "t1" { tasks := [], staged := [], scheduled := [] }).2.tasks.map
      Task.user_id) = [7] ∧ (7 : Int) ≠ 0 := by decide

/-- C1 (amended): for every accepted submission in which the client supplies
a NONZERO owner identifier, the persisted task row carries the
client-supplied identifier rather than the authenticated principal's;
a supplied identifier of 0 (or an omitted one) falls back to the
authenticated principal. -/
theorem C1_client_override (inp : SubmitInput) (taskId : String)
    (st : SubmitState) (u : Int) (hu : inp.form_user_id = some u) (hnz : u ≠ 0)
    (hsz : ¬ inp.content_size > MAX_FILE_SIZE_BYTES)
    (hty : inp.task_type ∈ valid_tasks) :
    ∃ t : Task, (submit_file inp taskId st).2.tasks = st.tasks ++ [t] ∧
      t.user_id = u := by
  unfold submit_file
  rw [if_neg hsz, if_neg (not_not_intro hty)]
  refine ⟨_, rfl, ?_⟩
  simp [effectiveUserId, hu, hnz]

theorem C1_client_override_witness :
    ∃ t : Task,
      (submit_file
          { filename := "a.txt", content_size := 5, task_type := "summarize",
            form_user_id := some 42, auth_user_id := 7 }
          "t1" { tasks := [], staged := [], scheduled := [] }).2.tasks =
        [] ++ [t] ∧ t.user_id = 42 :=
  C1_client_override _ "t1" _ 42 rfl (by decide) (by decide) (by decide)

/-- C6: an oversized payload or an unrecognised task-kind is rejected
synchronously with an `HTTPException` and the submission state is
untouched: no task row, no staged file, no scheduled background run. -/
theorem C6_reject_before_persistence (inp : SubmitInput) (taskId : String)
    (st : SubmitState)
    (h : inp.content_size > MAX_FILE_SIZE_BYTES ∨ inp.task_type ∉ valid_tasks) :
    (∃ e : HTTPError, (submit_file inp taskId st).1 = Except.error e) ∧
      (submit_file inp taskId st).2 = st := by
  unfold submit_file
  rcases h with h | h
  · rw [if_pos h]
    exact ⟨⟨_, rfl⟩, rfl⟩
  · by_cases h1 : inp.content_size > MAX_FILE_SIZE_BYTES
    · rw [if_pos h1]
      exact ⟨⟨_, rfl⟩, rfl⟩
    · rw [if_neg h1, if_pos h]
      exact ⟨⟨_, rfl⟩, rfl⟩

theorem C6_reject_before_persistence_witness :
    (∃ e : HTTPError,
        (submit_file
            { filename := "big.txt", content_size := 10485761,
              task_type := "summarize", form_user_id := none,
              auth_user_id := 7 }
            "t1" { tasks := [], staged := [], scheduled := [] }).1 =
          Except.error e) ∧
      (submit_file
          { filename := "big.txt", content_size := 10485761,
            task_type := "summarize", form_user_id := none, auth_user_id := 7 }
          "t1" { tasks := [], staged := [], scheduled := [] }).2 =
        { tasks := [], staged := [], scheduled := [] } :=
  C6_reject_before_persistence _ "t1" _ (Or.inl (by decide))

/-- C2: the claim that every channel lacking a valid matching credential is
refused is FALSE: a connection presenting NO token skips validation
entirely (`if token:`), is registered with the manager, and is sent the
`connected` event — here with a decoder under which no credential at all
is valid. -/
theorem C2_counterexample :
    (websocket_endpoint (fun _ => none) none 7 ⟨[]⟩ 0).1.registered = true ∧
    (websocket_endpoint (fun _ => none) none 7 ⟨[]⟩ 0).1.connected_event_sent
      = true ∧
    (websocket_endpoint (fun _ => none) none 7 ⟨[]⟩ 0).2.active_connections
      = [(7, [0])] := by decide

/-- C2 (amended): when a non-empty credential IS presented, the channel is
refused (closed with 4001, not registered, no connected event) unless the
credential decodes to an owner-id equal to the channel's bound owner-id;
but a connection presenting no credential is accepted, registered and sent
the connected event without any check. -/
theorem C2_token_must_match (decodeTok : String → Option Int) (t : String)
    (uid : Int) (m : ConnectionManager) (ws : Conn)
    (hne : t ≠ "") (hbad : decodeTok t ≠ some uid) :
    websocket_endpoint decodeTok (some t) uid m ws =
      ({ registered := false, connected_event_sent := false,
         close_code := some 4001 }, m) ∧
    (websocket_endpoint decodeTok none uid m ws).1.registered = true := by
  refine ⟨?_, rfl⟩
  cases hd : decodeTok t with
  | none => simp [websocket_endpoint, hne, hd]
  | some v =>
      have hv : ¬ v = uid := fun h => hbad (by rw [hd, h])
      simp [websocket_endpoint, hne, hd, hv]

theorem C2_token_must_match_witness :
    websocket_endpoint (fun _ => some 5) (some "x") 7 ⟨[]⟩ 0 =
      ({ registered := false, connected_event_sent := false,
         close_code := some 4001 }, ⟨[]⟩) ∧
    (websocket_endpoint (fun _ => some 5) none 7 ⟨[]⟩ 0).1.registered = true :=
  C2_token_must_match (fun _ => some 5) "x" 7 ⟨[]⟩ 0 (by decide) (by decide)

/-- C10: for a filename whose (lower-cased) suffix is none of `.txt`,
`.pdf`, `.docx`, `.doc`, the extractor first attempts the plain-text read;
it returns that text on success and raises `Unsupported file type` only
when the read itself raises. -/
theorem C10_unknown_extension_fallback (env : ExtractEnv) (fn : String)
    (h : pyLower (pathSuffix fn) ∉ [".txt", ".pdf", ".docx", ".doc"]) :
    extract_text_from_file env fn =
      match env.readText with
      | .ok t => .ok t
      | .error _ =>
          .error ("Unsupported file type: " ++ pyLower (pathSuffix fn) ++
            ". Supported: .txt, .pdf, .docx") := by
  simp only [List.mem_cons, List.not_mem_nil, or_false, not_or] at h
  obtain ⟨h1, h2, h3, h4⟩ := h
  simp only [extract_text_from_file]
  rw [if_neg h1, if_neg h2, if_neg (not_or.mpr ⟨h3, h4⟩)]

theorem C10_unknown_extension_fallback_witness :
    pyLower (pathSuffix "notes.md") ∉ [".txt", ".pdf", ".docx", ".doc"] ∧
    extract_text_from_file envMd "notes.md" = Except.ok "markdown text" :=
  ⟨by decide, C10_unknown_extension_fallback envMd "notes.md" (by decide)⟩

/-- C3: the claim that NO failure escapes the Execute run is FALSE: the
processing-transition commit and the started push happen BEFORE the
`try`, so a persistence failure there propagates out of the run — nothing
is written, no failed state, no failed push. -/
theorem C3_counterexample :
    (background_process_file envTxt (.ok "OK") (some "database connection lost")
        none none ["f"] "f" "a.txt").escaped = some "database connection lost" ∧
    (background_process_file envTxt (.ok "OK") (some "database connection lost")
        none none ["f"] "f" "a.txt").writes = [] ∧
    (background_process_file envTxt (.ok "OK") (some "database connection lost")
        none none ["f"] "f" "a.txt").pushes = [] := by decide

/-- C3 (amended): failures arising inside the guarded section of the run —
extraction, inference, or the completed-result persistence — are caught and
converted into the failed terminal state plus a failed PushEvent, provided
the processing transition and the failed-status persistence themselves
succeed; a failure at the processing transition (before the `try`) or in
the failed-status persistence itself propagates out of the run. -/
theorem C3_guarded_failures_caught (env : ExtractEnv)
    (resp : Except String String) (w2 : Option String) (files0 : List String)
    (fp fn : String)
    (hfail : (∃ m, (run_full_pipeline env resp fn).1 = .error m) ∨ w2 ≠ none) :
    (background_process_file env resp none w2 none files0 fp fn).escaped
      = none ∧
    (background_process_file env resp none w2 none files0 fp fn).writes.map
        (·.status) = [.processing, .failed] ∧
    (background_process_file env resp none w2 none files0 fp fn).pushes =
      ["task_started", "task_failed"] := by
  obtain ⟨⟨pres, pcalled⟩, hp⟩ : ∃ p, run_full_pipeline env resp fn = p :=
    ⟨_, rfl⟩
  rcases hfail with ⟨m, hm⟩ | hw2
  · rw [hp] at hm
    simp only at hm
    subst hm
    refine ⟨?_, ?_, ?_⟩ <;> simp [background_process_file, hp]
  · cases pres with
    | error m => refine ⟨?_, ?_, ?_⟩ <;> simp [background_process_file, hp]
    | ok r =>
      cases w2 with
      | none => exact absurd rfl hw2
      | some e2 => refine ⟨?_, ?_, ?_⟩ <;> simp [background_process_file, hp]

theorem C3_guarded_failures_caught_witness :
    (background_process_file envNoPdf (.ok "OK") none none none ["f"] "f"
        "a.pdf").escaped = none ∧
    (background_process_file envNoPdf (.ok "OK") none none none ["f"] "f"
        "a.pdf").writes.map (·.status) = [.processing, .failed] ∧
    (background_process_file envNoPdf (.ok "OK") none none none ["f"] "f"
        "a.pdf").pushes = ["task_started", "task_failed"] :=
  C3_guarded_failures_caught envNoPdf (.ok "OK") none ["f"] "f" "a.pdf"
    (Or.inl ⟨"PDF processing not available. Install PyPDF2.", by decide⟩)

/-- C4: over every run — any persistence outcomes, any pipeline outcome —
the statuses written over the task's lifetime (the pending insert of
`submit_file` followed by the run's committed updates) form a prefix of
pending → processing → {completed | failed}. -/
theorem C4_status_monotonic (env : ExtractEnv) (resp : Except String String)
    (w1 w2 w3 : Option String) (files0 : List String) (fp fn : String) :
    statusHistory (background_process_file env resp w1 w2 w3 files0 fp fn) <+:
        [Status.pending, .processing, .completed] ∨
      statusHistory (background_process_file env resp w1 w2 w3 files0 fp fn) <+:
        [Status.pending, .processing, .failed] := by
  obtain ⟨⟨pres, pcalled⟩, hp⟩ : ∃ p, run_full_pipeline env resp fn = p :=
    ⟨_, rfl⟩
  cases w1 with
  | some e1 =>
      exact Or.inl ⟨[Status.processing, Status.completed], rfl⟩
  | none =>
    cases pres with
    | ok r =>
      cases w2 with
      | none =>
          exact Or.inl ⟨[], by simp [statusHistory, background_process_file, hp]⟩
      | some e2 =>
        cases w3 with
        | none =>
            exact Or.inr
              ⟨[], by simp [statusHistory, background_process_file, hp]⟩
        | some e3 =>
            exact Or.inl
              ⟨[Status.completed],
               by simp [statusHistory, background_process_file, hp]⟩
    | error msg =>
      cases w3 with
      | none =>
          exact Or.inr ⟨[], by simp [statusHistory, background_process_file, hp]⟩
      | some e3 =>
          exact Or.inl
            ⟨[Status.completed],
             by simp [statusHistory, background_process_file, hp]⟩

/-- C7: when extraction fails (and the surrounding persistence succeeds),
the run commits exactly processing then failed-with-the-extractor's-message,
pushes started then failed, and never reaches the inference call. -/
theorem C7_extraction_failure_no_inference (env : ExtractEnv)
    (resp : Except String String) (w2 : Option String) (files0 : List String)
    (fp fn m : String)
    (hext : extract_text_from_file env fn = .error m) :
    (background_process_file env resp none w2 none files0 fp fn).writes =
      [{ status := .processing },
       { status := .failed, error_message := some m }] ∧
    (background_process_file env resp none w2 none files0 fp fn).pushes =
      ["task_started", "task_failed"] ∧
    (background_process_file env resp none w2 none files0 fp fn).inference_called
      = false := by
  have hp : run_full_pipeline env resp fn = (.error m, false) := by
    unfold run_full_pipeline
    rw [hext]
  refine ⟨?_, ?_, ?_⟩ <;> simp [background_process_file, hp]

theorem C7_extraction_failure_no_inference_witness :
    (background_process_file envNoPdf (.ok "OK") none none none ["f"] "f"
        "corrupt.pdf").writes =
      [{ status := .processing },
       { status := .failed,
         error_message := some "PDF processing not available. Install PyPDF2." }] ∧
    (background_process_file envNoPdf (.ok "OK") none none none ["f"] "f"
        "corrupt.pdf").pushes = ["task_started", "task_failed"] ∧
    (background_process_file envNoPdf (.ok "OK") none none none ["f"] "f"
        "corrupt.pdf").inference_called = false :=
  C7_extraction_failure_no_inference envNoPdf (.ok "OK") none ["f"] "f"
    "corrupt.pdf" "PDF processing not available. Install PyPDF2." (by decide)

/-- C9: the claim that the staged file is removed on EVERY exit path is
FALSE: a failure at the processing transition exits the run before the
`try`/`finally`, so cleanup never runs and the staged file survives. -/
theorem C9_counterexample :
    (background_process_file envTxt (.ok "OK") (some "db down") none none
        ["/app/uploads/t1_a.txt"] "/app/uploads/t1_a.txt" "a.txt").cleanup_ran
      = false ∧
    "/app/uploads/t1_a.txt" ∈
      (background_process_file envTxt (.ok "OK") (some "db down") none none
        ["/app/uploads/t1_a.txt"] "/app/uploads/t1_a.txt" "a.txt").files := by
  decide

/-- C9 (amended): on every exit of the run that reaches the guarded
section — completed, failed, and any escaping persistence error there —
the `finally` cleanup runs and the staged file is gone afterwards, and an
already-absent file is not an error (cleanup leaves the file list
unchanged instead of raising); only a run aborted at the initial
processing transition skips cleanup. -/
theorem C9_cleanup_on_guarded_exits (env : ExtractEnv)
    (resp : Except String String) (w2 w3 : Option String)
    (files0 : List String) (fp fn : String) (hnd : files0.Nodup) :
    (background_process_file env resp none w2 w3 files0 fp fn).cleanup_ran
      = true ∧
    fp ∉ (background_process_file env resp none w2 w3 files0 fp fn).files ∧
    (fp ∉ files0 →
      (background_process_file env resp none w2 w3 files0 fp fn).files
        = files0) := by
  obtain ⟨⟨pres, pcalled⟩, hp⟩ : ∃ p, run_full_pipeline env resp fn = p :=
    ⟨_, rfl⟩
  have key : (background_process_file env resp none w2 w3 files0 fp fn).cleanup_ran
        = true ∧
      (background_process_file env resp none w2 w3 files0 fp fn).files
        = cleanup_temp_file files0 fp := by
    cases pres with
    | ok r =>
      cases w2 with
      | none => exact ⟨by simp [background_process_file, hp],
          by simp [background_process_file, hp]⟩
      | some e2 =>
          cases w3 <;>
            exact ⟨by simp [background_process_file, hp],
              by simp [background_process_file, hp]⟩
    | error m =>
        cases w3 <;>
          exact ⟨by simp [background_process_file, hp],
            by simp [background_process_file, hp]⟩
  refine ⟨key.1, ?_, ?_⟩
  · rw [key.2]
    unfold cleanup_temp_file os_remove
    by_cases hin : fp ∈ files0
    · rw [if_pos hin]
      intro hmem
      exact ((hnd.mem_erase_iff).mp hmem).1 rfl
    · rw [if_neg hin]
      exact hin
  · intro hout
    rw [key.2]
    unfold cleanup_temp_file os_remove
    rw [if_neg hout]

theorem C9_cleanup_on_guarded_exits_witness :
    (background_process_file envTxt (.ok "OK") none none none ["f"] "f"
        "a.txt").cleanup_ran = true ∧
    "f" ∉ (background_process_file envTxt (.ok "OK") none none none ["f"] "f"
        "a.txt").files ∧
    ("f" ∉ ["f"] →
      (background_process_file envTxt (.ok "OK") none none none ["f"] "f"
        "a.txt").files = ["f"]) :=
  C9_cleanup_on_guarded_exits envTxt (.ok "OK") none none ["f"] "f" "a.txt"
    (by decide)

/-- C5: the claim that a completed task's result is NON-EMPTY is FALSE:
the code never checks the model's answer for emptiness, so a model answer
that strips to the empty string is persisted as `completed` with
`result = some ""`. -/
theorem C5_counterexample :
    ((background_process_file envTxt (.ok "") none none none [] "f"
          "a.txt").writes.foldl applyUpdate
        (pendingTask "t1" 7 "a.txt" 5 "summarize")).status = .completed ∧
    ((background_process_file envTxt (.ok "") none none none [] "f"
          "a.txt").writes.foldl applyUpdate
        (pendingTask "t1" 7 "a.txt" 5 "summarize")).result = some "" := by
  decide

/-- C5 (amended): in every row state a task passes through, completed
implies the result column is SET (though possibly the empty string) and
the error column unset; failed implies the error column is SET (though
possibly empty) and the result column unset; and while pending or
processing, both are unset. -/
theorem C5_result_error_discipline (env : ExtractEnv)
    (resp : Except String String) (w1 w2 w3 : Option String)
    (files0 : List String) (fp fn : String)
    (tid : String) (uid : Int) (fname : String) (sz : Nat) (tt : String) :
    ∀ t ∈ taskStates (pendingTask tid uid fname sz tt)
        (background_process_file env resp w1 w2 w3 files0 fp fn),
      (t.status = .completed → t.result.isSome ∧ t.error_message = none) ∧
      (t.status = .failed → t.error_message.isSome ∧ t.result = none) ∧
      (t.status = .pending ∨ t.status = .processing →
        t.result = none ∧ t.error_message = none) := by
  obtain ⟨⟨pres, pcalled⟩, hp⟩ : ∃ p, run_full_pipeline env resp fn = p :=
    ⟨_, rfl⟩
  intro t ht
  cases w1 with
  | some e1 =>
      simp [taskStates, background_process_file, pendingTask] at ht
      subst ht
      simp [pendingTask]
  | none =>
    cases pres with
    | ok r =>
      cases w2 with
      | none =>
          simp [taskStates, background_process_file, hp, applyUpdate,
            pendingTask] at ht
          rcases ht with h | h | h <;> subst h <;> simp
      | some e2 =>
        cases w3 with
        | none =>
            simp [taskStates, background_process_file, hp, applyUpdate,
              pendingTask] at ht
            rcases ht with h | h | h <;> subst h <;> simp
        | some e3 =>
            simp [taskStates, background_process_file, hp, applyUpdate,
              pendingTask] at ht
            rcases ht with h | h <;> subst h <;> simp
    | error m =>
      cases w3 with
      | none =>
          simp [taskStates, background_process_file, hp, applyUpdate,
            pendingTask] at ht
          rcases ht with h | h | h <;> subst h <;> simp
      | some e3 =>
          simp [taskStates, background_process_file, hp, applyUpdate,
            pendingTask] at ht
          rcases ht with h | h <;> subst h <;> simp

theorem C5_result_error_discipline_witness :
    ((pendingTask "t1" 7 "a.txt" 5 "summarize").status = .completed →
      (pendingTask "t1" 7 "a.txt" 5 "summarize").result.isSome ∧
      (pendingTask "t1" 7 "a.txt" 5 "summarize").error_message = none) ∧
    ((pendingTask "t1" 7 "a.txt" 5 "summarize").status = .failed →
      (pendingTask "t1" 7 "a.txt" 5 "summarize").error_message.isSome ∧
      (pendingTask "t1" 7 "a.txt" 5 "summarize").result = none) ∧
    ((pendingTask "t1" 7 "a.txt" 5 "summarize").status = .pending ∨
     (pendingTask "t1" 7 "a.txt" 5 "summarize").status = .processing →
      (pendingTask "t1" 7 "a.txt" 5 "summarize").result = none ∧
      (pendingTask "t1" 7 "a.txt" 5 "summarize").error_message = none) :=
  C5_result_error_discipline envTxt (.ok "OK") none none none [] "f" "a.txt"
    "t1" 7 "a.txt" 5 "summarize" (pendingTask "t1" 7 "a.txt" 5 "summarize")
    (by decide)

/-- Erasing values all different from the head leaves the head in place. -/
theorem foldl_erase_cons_of_ne (ds : List Conn) (c : Conn) (cs : List Conn)
    (h : ∀ d ∈ ds, d ≠ c) :
    ds.foldl (fun acc d => acc.erase d) (c :: cs) =
      c :: ds.foldl (fun acc d => acc.erase d) cs := by
  induction ds generalizing cs with
  | nil => rfl
  | cons d ds ih =>
      have hd : d ≠ c := h d (List.mem_cons_self d ds)
      simp only [List.foldl_cons]
      rw [List.erase_cons_tail (by simpa using fun hcd => hd hcd.symm)]
      exact ih _ fun x hx => h x (List.mem_cons_of_mem _ hx)

/-- The `remove`-loop over the collected dead connections is the filter of
the surviving ones. -/
theorem removeDead_eq_filter (sendOk : Conn → Bool) (conns : List Conn) :
    removeDeadConnections conns (conns.filter fun c => ! sendOk c) =
      conns.filter fun c => sendOk c := by
  induction conns with
  | nil => rfl
  | cons c cs ih =>
      unfold removeDeadConnections at ih ⊢
      cases h : sendOk c with
      | false =>
          rw [show List.filter (fun c => ! sendOk c) (c :: cs) =
              c :: List.filter (fun c => ! sendOk c) cs by simp [h]]
          rw [show List.filter (fun c => sendOk c) (c :: cs) =
              List.filter (fun c => sendOk c) cs by simp [h]]
          simp only [List.foldl_cons, List.erase_cons_head]
          exact ih
      | true =>
          rw [show List.filter (fun c => ! sendOk c) (c :: cs) =
              List.filter (fun c => ! sendOk c) cs by simp [h]]
          rw [show List.filter (fun c => sendOk c) (c :: cs) =
              c :: List.filter (fun c => sendOk c) cs by simp [h]]
          rw [foldl_erase_cons_of_ne _ _ _ ?hne]
          · rw [ih]
          · intro d hd hdc
            have hdb := List.of_mem_filter hd
            subst hdc
            rw [h] at hdb
            simp at hdb

/-- Point update of a present bucket is observed by a following lookup. -/
theorem lookupBucket_setBucket (l : List (Int × List Conn)) (uid : Int)
    (new : List Conn) (conns : List Conn)
    (h : lookupBucket l uid = some conns) :
    lookupBucket (setBucket l uid new) uid = some new := by
  induction l with
  | nil => simp [lookupBucket] at h
  | cons p rest ih =>
      obtain ⟨u, cs⟩ := p
      by_cases hu : u = uid
      · subst hu
        simp [lookupBucket, setBucket]
      · simp only [lookupBucket, setBucket, if_neg hu] at h ⊢
        exact ih h

/-- C8: a Push to an owner with no bucket is a no-op; otherwise the message
is delivered to exactly the surviving connections (a failing one does not
abort the rest), the failing ones are removed from the bucket, and a
subsequent Push to the same owner never attempts delivery to a removed
connection. -/
theorem C8_dead_channels_pruned (m : ConnectionManager) (sendOk : Conn → Bool)
    (uid : Int) :
    (lookupBucket m.active_connections uid = none →
      m.send_to_user sendOk uid = (m, [])) ∧
    (∀ conns, lookupBucket m.active_connections uid = some conns →
      (m.send_to_user sendOk uid).2 = conns.filter (fun c => sendOk c) ∧
      lookupBucket (m.send_to_user sendOk uid).1.active_connections uid =
        some (conns.filter fun c => sendOk c) ∧
      (∀ c ∈ conns, sendOk c = false →
        ∀ sendOk2 : Conn → Bool,
          c ∉ ((m.send_to_user sendOk uid).1.send_to_user sendOk2 uid).2)) := by
  constructor
  · intro h
    simp [ConnectionManager.send_to_user, h]
  · intro conns h
    have hsend : m.send_to_user sendOk uid =
        (⟨setBucket m.active_connections uid (conns.filter fun c => sendOk c)⟩,
         conns.filter fun c => sendOk c) := by
      simp only [ConnectionManager.send_to_user, h]
      rw [removeDead_eq_filter]
    have hl : lookupBucket
        (m.send_to_user sendOk uid).1.active_connections uid =
        some (conns.filter fun c => sendOk c) := by
      rw [hsend]
      exact lookupBucket_setBucket _ _ _ _ h
    refine ⟨by rw [hsend], hl, ?_⟩
    intro c _ hcf sendOk2
    rw [hsend]
    have hl2 : lookupBucket
        (setBucket m.active_connections uid (conns.filter fun c => sendOk c))
        uid = some (conns.filter fun c => sendOk c) :=
      lookupBucket_setBucket _ _ _ _ h
    simp only [ConnectionManager.send_to_user, hl2]
    intro hmem
    have h1 := (List.mem_filter.mp hmem).1
    have h2 := (List.mem_filter.mp h1).2
    simp [hcf] at h2

theorem C8_dead_channels_pruned_witness :
    ((⟨[(7, [0, 1])]⟩ : ConnectionManager).send_to_user (fun c => c == 1) 7).2
      = [1] ∧
    lookupBucket ((⟨[(7, [0, 1])]⟩ : ConnectionManager).send_to_user
        (fun c => c == 1) 7).1.active_connections 7 = some [1] ∧
    0 ∉ (((⟨[(7, [0, 1])]⟩ : ConnectionManager).send_to_user
        (fun c => c == 1) 7).1.send_to_user (fun _ => true) 7).2 := by
  have h := (C8_dead_channels_pruned ⟨[(7, [0, 1])]⟩ (fun c => c == 1) 7).2
    [0, 1] rfl
  exact ⟨h.1, h.2.1, h.2.2 0 (by decide) (by decide) (fun _ => true)⟩

end Platform
